import Mathlib

/-!
Verification of the eezo connector module (src/eezo/connector.py and the
interface classes it instantiates), shallowly embedded in Lean 4.

The embedding mirrors, definition by definition:
  * Python keyword/positional argument binding, since two of the claims hinge
    on constructor signatures (Interface.__init__, Connector.__init__);
  * JobCompleted and Connector.__execute_job / AsyncConnector.__execute_job;
  * the pending-result table (self.job_responses), its job_response event
    handler and Connector.__get_job_result, as a small-step machine;
  * the reconnect loop of Connector.connect as a trace semantics over an
    environment script of session outcomes;
  * the token_expired handlers of both connectors, together with the
    python-socketio dispatch rule that decides whether a handler coroutine
    is awaited.
-/

set_option autoImplicit false

namespace Eezo

/-- JSON-like values carried in event payloads, handler results and errors.
Python None is `Value.null`; `obj` covers the flat string dictionaries the
claims exercise. -/
inductive Value where
  | null
  | bool (b : Bool)
  | str (s : String)
  | num (n : Int)
  | obj (fields : List (String × String))
deriving DecidableEq, Repr

/- ### Python call binding -/

/-- One parameter of a Python function signature: its name and whether it has
a default value. -/
structure Param where
  name : String
  hasDefault : Bool
deriving DecidableEq, Repr

/-- Does the parameter list accept keyword `k`? -/
def acceptsKw (ps : List Param) (k : String) : Bool :=
  ps.any (fun p => p.name == k)

/-- First keyword argument not accepted by the signature, if any. -/
def unexpectedKw (ps : List Param) (ks : List String) : Option String :=
  ks.find? (fun k => !acceptsKw ps k)

/-- First required parameter not supplied by the keyword arguments, if any. -/
def missingRequired (ps : List Param) (ks : List String) : Option String :=
  (ps.find? (fun p => !p.hasDefault && !(ks.contains p.name))).map (fun p => p.name)

/-- Python keyword-argument binding: calling a function whose parameters are
`ps` with exactly the keyword arguments `ks` either binds (`ok`) or raises a
TypeError (unexpected keyword argument, or missing required argument). -/
def bindKwargs (ps : List Param) (ks : List String) : Except String Unit :=
  match unexpectedKw ps ks with
  | some k => .error ("TypeError: unexpected keyword argument " ++ k)
  | none =>
    match missingRequired ps ks with
    | some p => .error ("TypeError: missing required argument " ++ p)
    | none => .ok ()

/-- Python positional binding: `nargs` positional arguments against a
signature with `required` mandatory parameters out of `total`. -/
def bindPositional (required total nargs : Nat) : Except String Unit :=
  if nargs > total then .error "TypeError: too many positional arguments"
  else if nargs < required then .error "TypeError: missing required positional arguments"
  else .ok ()

/-- Parameters of Interface.__init__ after self
(src/eezo/interface/interface.py lines 137 to 144):
job_id, user_id, api_key, cb_send_message, cb_run - all without defaults. -/
def interfaceInitParams : List Param :=
  [⟨"job_id", false⟩, ⟨"user_id", false⟩, ⟨"api_key", false⟩,
   ⟨"cb_send_message", false⟩, ⟨"cb_run", false⟩]

/-- Parameters of AsyncInterface.__init__ after self
(src/eezo/interface/interface_async.py lines 121 to 129). -/
def asyncInterfaceInitParams : List Param :=
  [⟨"job_id", false⟩, ⟨"user_id", false⟩, ⟨"api_key", false⟩,
   ⟨"cb_send_message", false⟩, ⟨"cb_invoke_connector", false⟩,
   ⟨"cb_get_result", false⟩]

/-- Keyword arguments used by both __execute_job bodies to construct the
interface object (src/eezo/connector.py lines 217 to 222 and 98 to 103). -/
def executeJobInterfaceKwargs : List String :=
  ["job_id", "cb_send_message", "cb_invoke_connector", "cb_get_result"]

/-- Result of the `Interface(...)` construction inside Connector.__execute_job. -/
def interfaceConstruct : Except String Unit :=
  bindKwargs interfaceInitParams executeJobInterfaceKwargs

/-- Result of the `AsyncInterface(...)` construction inside
AsyncConnector.__execute_job. -/
def asyncInterfaceConstruct : Except String Unit :=
  bindKwargs asyncInterfaceInitParams executeJobInterfaceKwargs

/- ### JobCompleted and __execute_job -/

/-- The JobCompleted record (src/eezo/connector.py lines 19 to 34). -/
structure JobCompleted where
  result : Value
  success : Bool
  error : Option String
  traceback : Option String
  error_tag : Option String
deriving DecidableEq, Repr

/-- JobCompleted.to_dict (src/eezo/connector.py lines 27 to 34). -/
def JobCompleted.to_dict (j : JobCompleted) : List (String × Value) :=
  [("result", j.result),
   ("success", Value.bool j.success),
   ("error", j.error.elim Value.null Value.str),
   ("traceback", j.traceback.elim Value.null Value.str),
   ("error_tag", j.error_tag.elim Value.null Value.str)]

/-- An inbound job_request payload: `{job_id, job_payload}`. -/
structure JobRequest where
  job_id : String
  job_payload : List (String × Value)
deriving DecidableEq, Repr

/-- An event emitted on the transport during job execution. -/
inductive Emitted where
  | job_completed (payload : List (String × Value))
deriving DecidableEq, Repr

/-- Model of traceback.format_exc() for an exception with message `msg`. -/
def formatExc (msg : String) : String :=
  "Traceback (most recent call last): " ++ msg

/-- The failure emission built in the except branch of __execute_job:
JobCompleted(result=None, success=False, error=str(e),
traceback=traceback.format_exc(), error_tag="Connector error"). -/
def failureCompletion (msg : String) : JobCompleted :=
  ⟨Value.null, false, some msg, some (formatExc msg), some "Connector error"⟩

/-- A registered handler, abstracted as a function from the expanded
job_payload to either a returned value or a raised exception message. -/
def Handler : Type := List (String × Value) → Except String Value

/-- Connector.__execute_job (src/eezo/connector.py lines 212 to 235).
Inside the try block the Interface object is constructed first; if that
construction raises, or the handler raises, the except branch emits a
failure JobCompleted; otherwise the success JobCompleted is emitted.
The function returns the list of emitted job_completed events. -/
def executeJob (handler : Handler) (job : JobRequest) : List Emitted :=
  match interfaceConstruct with
  | .error e => [Emitted.job_completed (failureCompletion e).to_dict]
  | .ok _ =>
    match handler job.job_payload with
    | .ok r =>
        [Emitted.job_completed (JobCompleted.to_dict ⟨r, true, none, none, none⟩)]
    | .error e => [Emitted.job_completed (failureCompletion e).to_dict]

/-- AsyncConnector.__execute_job (src/eezo/connector.py lines 93 to 115):
identical control flow, but the constructed object is an AsyncInterface. -/
def asyncExecuteJob (handler : Handler) (job : JobRequest) : List Emitted :=
  match asyncInterfaceConstruct with
  | .error e => [Emitted.job_completed (failureCompletion e).to_dict]
  | .ok _ =>
    match handler job.job_payload with
    | .ok r =>
        [Emitted.job_completed (JobCompleted.to_dict ⟨r, true, none, none, none⟩)]
    | .error e => [Emitted.job_completed (failureCompletion e).to_dict]

/- ### The pending-result table and nested-invocation correlation -/

/-- One job_response payload `{id, success?, result, error?}`. The success
and error keys may be absent from the arriving dict, hence Option. -/
structure RespPayload where
  id : String
  success : Option Bool
  result : Value
  error : Option String
deriving DecidableEq, Repr

/-- The self.job_responses dict, keyed by response id. -/
abbrev RespTable : Type := List (String × RespPayload)

/-- Python dict update with a single key: replace the value at the existing
key, otherwise append the new binding at the end. Models the job_response
handler body self.job_responses.update at src/eezo/connector.py line 250.
The table never holds a key twice, so replacing the first occurrence is
replacing the only one. -/
def dictUpdate : RespTable → String → RespPayload → RespTable
  | [], k, v => [(k, v)]
  | kv :: t, k, v => if kv.1 == k then (k, v) :: t else kv :: dictUpdate t k v

/-- Python dict lookup: the value stored at `k`, if any. -/
def dictFind : RespTable → String → Option RespPayload
  | [], _ => none
  | kv :: t, k => if kv.1 == k then some kv.2 else dictFind t k

/-- Python dict.pop: the popped value together with the table without `k`. -/
def dictPop : RespTable → String → Option (RespPayload × RespTable)
  | [], _ => none
  | kv :: t, k =>
    if kv.1 == k then some (kv.2, t)
    else (dictPop t k).map (fun r => (r.1, kv :: r.2))

/-- One iteration of the polling loop of Connector.__get_job_result
(src/eezo/connector.py lines 196 to 210): if job_id is a key of the table,
pop the response and produce its outcome - ok result when
response.get("success", True) is truthy, otherwise the raised exception
carrying response["error"]; if job_id is absent, sleep and poll again
(modelled as `none`, table unchanged). AsyncConnector.__get_job_result
(lines 81 to 91) has the same structure with a reworded error message. -/
def getJobResultPoll (t : RespTable) (job_id : String) :
    Option (Except String Value) × RespTable :=
  match dictPop t job_id with
  | some (resp, t2) =>
    if resp.success.getD true then (some (.ok resp.result), t2)
    else (some (.error (resp.error.getD "KeyError: error")), t2)
  | none => (none, t)

deriving instance DecidableEq for Except

/-- Status of one blocked invoke() call. -/
inductive WaitStatus where
  | pending
  | done (outcome : Except String Value)
deriving DecidableEq, Repr

/-- One invoke() call waiting inside __get_job_result for its new_job_id. -/
structure Waiter where
  wid : String
  status : WaitStatus
deriving DecidableEq, Repr

/-- The per-connection correlation state: the job_responses dict plus the
invoke() calls currently blocked in __get_job_result. -/
structure CorrState where
  table : RespTable
  waiters : List Waiter

/-- Interleaving events of the correlation machine: the transport delivers a
job_response (the handler registered at src/eezo/connector.py line 250
stores it under its id), or the scheduler runs one polling iteration of
waiter `i`. -/
inductive CorrEv where
  | response (p : RespPayload)
  | poll (i : Nat)

/-- Small-step semantics of the correlation machine. -/
def corrStep (s : CorrState) (e : CorrEv) : CorrState :=
  match e with
  | .response p => { s with table := dictUpdate s.table p.id p }
  | .poll i =>
    match s.waiters[i]? with
    | none => s
    | some w =>
      match w.status with
      | .done _ => s
      | .pending =>
        match getJobResultPoll s.table w.wid with
        | (none, _) => s
        | (some r, t2) =>
            { table := t2, waiters := s.waiters.set i ⟨w.wid, .done r⟩ }

/-- Run a list of events from a state. -/
def corrRun (s : CorrState) (es : List CorrEv) : CorrState :=
  es.foldl corrStep s

/- ### The reconnect loop of Connector.connect -/

/-- Events the peer can deliver while a session is up (during sio.wait):
auth_error clears the run flag (src/eezo/connector.py lines 245 to 247),
token_expired triggers a fresh __authenticate call in the sync connector
(line 251); any other event leaves the loop state untouched. -/
inductive SEv where
  | authError
  | tokenExpired
  | otherEvent
deriving DecidableEq, Repr

/-- Outcome of one iteration of the while loop: sio.connect raises a
ConnectionError; or the connect succeeds and sio.wait returns after the
listed in-session events (a transport disconnect ends the session); or a
KeyboardInterrupt arrives. -/
inductive Outcome where
  | connectError
  | session (evs : List SEv)
  | interrupt
deriving DecidableEq, Repr

/-- Observable actions of Connector.connect. `signin` is a POST to the
/signin endpoint (Connector.__authenticate, lines 188 to 194);
`connectAttempt` is a call of self.sio.connect(SERVER); `authEmit` is the
authenticate event the connect handler emits with the stored token (lines
172 to 182); `sleep5` is time.sleep(5); `disconnectCall` is the final
self.sio.disconnect(). -/
inductive Action where
  | signin
  | connectAttempt
  | authEmit
  | sleep5
  | disconnectCall
deriving DecidableEq, Repr

/-- Effect of the in-session events on the run flag, together with the
actions the event handlers perform: auth_error assigns run_loop = False,
token_expired runs __authenticate (a signin POST), nothing else changes
the loop state. -/
def sessionRun (run : Bool) : List SEv → Bool × List Action
  | [] => (run, [])
  | SEv.authError :: rest => sessionRun false rest
  | SEv.tokenExpired :: rest =>
      let r := sessionRun run rest
      (r.1, Action.signin :: r.2)
  | SEv.otherEvent :: rest => sessionRun run rest

/-- The while run_loop loop of Connector.connect (src/eezo/connector.py
lines 254 to 272), entered with run_loop true, run against a finite script
of iteration outcomes. A ConnectionError leaves run_loop untouched (no
handler ran), so the `if self.run_loop` guard holds and the loop sleeps 5
seconds and retries. A session that ends with run_loop still true loops
immediately - there is no sleep on that path. KeyboardInterrupt clears the
flag and breaks. On loop exit self.sio.disconnect() runs. An exhausted
script means the connector is still blocked inside the loop: no further
actions observed. -/
def connectLoop : List Outcome → List Action
  | [] => []
  | Outcome.connectError :: rest =>
      Action.connectAttempt :: Action.sleep5 :: connectLoop rest
  | Outcome.interrupt :: _ =>
      [Action.connectAttempt, Action.disconnectCall]
  | Outcome.session evs :: rest =>
      let r := sessionRun true evs
      Action.connectAttempt :: Action.authEmit ::
        (r.2 ++ (if r.1 then connectLoop rest else [Action.disconnectCall]))

/-- Connector.connect (lines 237 to 272): one __authenticate call before
the handlers are registered and the loop starts. -/
def connectorConnect (script : List Outcome) : List Action :=
  Action.signin :: connectLoop script

/-- Does any session of the script deliver a token_expired event? -/
def scriptHasTokenExpired : List Outcome → Bool
  | [] => false
  | Outcome.session evs :: rest =>
      evs.contains SEv.tokenExpired || scriptHasTokenExpired rest
  | _ :: rest => scriptHasTokenExpired rest

/- ### Token refresh on token_expired and Python coroutine semantics -/

/-- Authentication state of a connector: the stored token and how many
signin POSTs have been made. -/
structure AuthState where
  token : Nat
  signinCount : Nat
deriving DecidableEq, Repr

/-- The __authenticate body: POST /signin and store the freshly issued
token (each signin yields a new token). -/
def authenticate (st : AuthState) : AuthState :=
  { token := st.signinCount + 1, signinCount := st.signinCount + 1 }

/-- What calling a Python callable produces: a plain def or lambda runs its
body at the call and returns an ordinary value; calling an async def does
not run the body - it merely builds a coroutine object wrapping it, which
has an effect only if someone awaits or schedules it. -/
inductive CallResult where
  | ret
  | coroutine (body : AuthState → AuthState)

/-- A handler registered with sio.on: whether the registered callable is
itself a coroutine function, and what calling it does to the auth state. -/
structure EventHandler where
  isCoroutineFunction : Bool
  call : AuthState → AuthState × CallResult

/-- Dispatch rule of python-socketio AsyncClient._trigger_event: the
handler is called, and its result is awaited only when the registered
callable is a coroutine function; otherwise the returned value - even a
coroutine - is discarded without being awaited. -/
def triggerEventAsync (h : EventHandler) (st : AuthState) : AuthState :=
  let r := h.call st
  if h.isCoroutineFunction then
    match r.2 with
    | CallResult.coroutine body => body r.1
    | CallResult.ret => r.1
  else r.1

/-- Dispatch rule of the sync socketio.Client: the handler is simply
called. -/
def triggerEventSync (h : EventHandler) (st : AuthState) : AuthState :=
  (h.call st).1

/-- The sync token_expired handler (src/eezo/connector.py line 251):
a plain lambda whose body calls self.__authenticate(), a plain method, so
the signin POST happens during the call. -/
def syncTokenExpiredHandler : EventHandler :=
  { isCoroutineFunction := false,
    call := fun st => (authenticate st, CallResult.ret) }

/-- The async token_expired handler (src/eezo/connector.py line 131):
a plain lambda whose body calls self.__authenticate(), an async def, so
the call only builds a coroutine of the authenticate body and returns it;
the lambda itself is not a coroutine function. Contrast the job_request
handler at line 129, which wraps its coroutine in asyncio.create_task. -/
def asyncTokenExpiredHandler : EventHandler :=
  { isCoroutineFunction := false,
    call := fun st => (st, CallResult.coroutine authenticate) }

/- ### Client.connect constructing Connector -/

/-- Signature of Connector.__init__ after self (src/eezo/connector.py
line 156): api_key, connector_id, connector_function required, logger
with a default - 3 required parameters out of 4. -/
def connectorInitRequired : Nat := 3

/-- Total parameter count of Connector.__init__ after self. -/
def connectorInitTotal : Nat := 4

/-- Number of positional arguments in the Connector construction inside
Client.connect (src/eezo/client.py lines 85 to 87): api_key, connector_id,
func, job_responses, logger. -/
def clientConnectArgc : Nat := 5

/-- Actions of Client.connect observable per registered handler. -/
inductive ClientAction where
  | submitConnect
deriving DecidableEq, Repr

/-- The for loop of Client.connect (src/eezo/client.py lines 84 to 88)
over `n` registered connector functions: each iteration constructs a
Connector - positional binding against Connector.__init__ - and only then
submits c.connect to the executor. A TypeError from the construction
propagates out of the loop (the surrounding try only handles
KeyboardInterrupt), so no later handler is scheduled either. -/
def scheduleConnectors : Nat → Except String (List ClientAction)
  | 0 => .ok []
  | n + 1 =>
    match bindPositional connectorInitRequired connectorInitTotal clientConnectArgc with
    | .error e => .error e
    | .ok _ =>
      match scheduleConnectors n with
      | .error e => .error e
      | .ok rest => .ok (ClientAction.submitConnect :: rest)

/- ### Concrete scenario inputs and small helpers -/

/-- The TypeError message produced by binding the kwargs of the sync
Interface construction: cb_invoke_connector is not a parameter of
Interface.__init__. -/
def interfaceTypeErrorMsg : String :=
  "TypeError: unexpected keyword argument cb_invoke_connector"

/-- The TypeError message produced by binding the kwargs of the
AsyncInterface construction: user_id is required but not supplied. -/
def asyncInterfaceTypeErrorMsg : String :=
  "TypeError: missing required argument user_id"

/-- The demo-1 handler of the spec scenario: returns the status-success
dictionary whatever its payload. -/
def demoHandler : Handler := fun _ => .ok (Value.obj [("status", "success")])

/-- The job_request of the spec scenario for demo-1. -/
def demoJob : JobRequest := ⟨"j1", [("query", Value.str "x")]⟩

/-- A handler that raises ValueError with message bad input. -/
def badInputHandler : Handler := fun _ => .error "bad input"

/-- The job_request of the failing-handler spec scenario. -/
def j2Job : JobRequest := ⟨"j2", [("query", Value.str "x")]⟩

/-- The job_completed dict the spec scenario expects for the demo-1 job:
result the handler value, success true, the other fields null. -/
def c2ExpectedDict : List (String × Value) :=
  [("result", Value.obj [("status", "success")]),
   ("success", Value.bool true),
   ("error", Value.null),
   ("traceback", Value.null),
   ("error_tag", Value.null)]

/-- A successful job_response with id X and result 42. -/
def pX : RespPayload := ⟨"X", some true, Value.num 42, none⟩

/-- Correlation start state: an empty table and one invoke() call pending
on id X. -/
def c3Start : CorrState := ⟨[], [⟨"X", WaitStatus.pending⟩]⟩

/-- A job_response payload arriving without a success key. -/
def pNoSuccess : RespPayload := ⟨"X", none, Value.num 7, none⟩

/-- A successful job_response with id Y and result 5. -/
def pY : RespPayload := ⟨"Y", some true, Value.num 5, none⟩

/-- Two concurrent invoke() calls pending on distinct ids X and Y. -/
def c7Start : CorrState :=
  ⟨[], [⟨"X", WaitStatus.pending⟩, ⟨"Y", WaitStatus.pending⟩]⟩

/-- Does every response event in `es` carry an id different from `y`? -/
def responsesAvoid (es : List CorrEv) (y : String) : Bool :=
  es.all (fun e =>
    match e with
    | CorrEv.response p => !(p.id == y)
    | CorrEv.poll _ => true)

/-- A state all whose waiters are already resolved. -/
def allDone (s : CorrState) : Prop :=
  ∀ w ∈ s.waiters, w.status ≠ WaitStatus.pending

/- ### Lemmas about the pending-result table -/

theorem dictFind_dictUpdate_ne (t : RespTable) (k y : String) (v : RespPayload)
    (hne : (k == y) = false) :
    dictFind (dictUpdate t k v) y = dictFind t y := by
  induction t with
  | nil => simp [dictUpdate, dictFind, hne]
  | cons kv t ih =>
    by_cases hk : (kv.1 == k) = true
    · have h1 : (kv.1 == y) = false := by
        have := eq_of_beq hk
        simpa [this] using hne
      simp [dictUpdate, dictFind, hk, hne, h1]
    · simp only [Bool.not_eq_true] at hk
      simp [dictUpdate, dictFind, hk, ih]

theorem dictPop_eq_none_of_find_none (t : RespTable) (y : String)
    (h : dictFind t y = none) : dictPop t y = none := by
  induction t with
  | nil => rfl
  | cons kv t ih =>
    by_cases hk : (kv.1 == y) = true
    · simp [dictFind, hk] at h
    · simp only [Bool.not_eq_true] at hk
      simp only [dictFind, hk] at h
      simp [dictPop, hk, ih h]

theorem dictFind_none_of_pop (t t2 : RespTable) (k y : String) (v : RespPayload)
    (hfind : dictFind t y = none) (hpop : dictPop t k = some (v, t2)) :
    dictFind t2 y = none := by
  induction t generalizing t2 with
  | nil => simp [dictPop] at hpop
  | cons kv t ih =>
    by_cases hy : (kv.1 == y) = true
    · simp [dictFind, hy] at hfind
    · simp only [Bool.not_eq_true] at hy
      simp [dictFind, hy] at hfind
      by_cases hk : (kv.1 == k) = true
      · simp [dictPop, hk] at hpop
        rw [← hpop.2]
        exact hfind
      · simp only [Bool.not_eq_true] at hk
        cases hdp : dictPop t k with
        | none => simp [dictPop, hk, hdp] at hpop
        | some r =>
          obtain ⟨rv, rt⟩ := r
          simp [dictPop, hk, hdp] at hpop
          rw [hpop.1] at hdp
          rw [← hpop.2]
          simp [dictFind, hy]
          exact ih rt hfind hdp

/- ### Lemmas about the correlation machine -/

theorem waiter_mem_of_getElem (l : List Waiter) (i : Nat) (w : Waiter)
    (h : l[i]? = some w) : w ∈ l := by
  rw [← List.get?_eq_getElem?] at h
  exact List.get?_mem h

/-- A step from a state whose waiters are all resolved leaves the waiters
unchanged: responses only touch the table, and a poll of a resolved waiter
is a no-op. -/
theorem corrStep_waiters_of_allDone (s : CorrState) (e : CorrEv) (h : allDone s) :
    (corrStep s e).waiters = s.waiters := by
  cases e with
  | response p => rfl
  | poll i =>
    cases hg : s.waiters[i]? with
    | none => simp [corrStep, hg]
    | some w =>
      cases hst : w.status with
      | pending => exact absurd hst (h w (waiter_mem_of_getElem _ i w hg))
      | done r => simp [corrStep, hg, hst]

/-- From an all-resolved state, any event sequence leaves the waiters
unchanged. -/
theorem corrRun_waiters_of_allDone (es : List CorrEv) (s : CorrState)
    (h : allDone s) : (corrRun s es).waiters = s.waiters := by
  induction es generalizing s with
  | nil => rfl
  | cons e rest ih =>
    have hstep := corrStep_waiters_of_allDone s e h
    have h2 : allDone (corrStep s e) := fun w hmem => h w (hstep ▸ hmem)
    have hr : corrRun s (e :: rest) = corrRun (corrStep s e) rest := rfl
    rw [hr, ih (corrStep s e) h2, hstep]

/-- One step preserves the invariant of claim C7: waiter `i` is still
pending on id `y` and the table has no entry for `y`, provided the step is
not a response carrying id `y` itself. -/
theorem corrStep_preserves_pending (s : CorrState) (e : CorrEv) (i : Nat) (y : String)
    (hw : s.waiters[i]? = some ⟨y, WaitStatus.pending⟩)
    (ht : dictFind s.table y = none)
    (he : ∀ p, e = CorrEv.response p → (p.id == y) = false) :
    (corrStep s e).waiters[i]? = some ⟨y, WaitStatus.pending⟩ ∧
    dictFind (corrStep s e).table y = none := by
  cases e with
  | response p =>
    refine ⟨hw, ?_⟩
    have hp := he p rfl
    simpa [corrStep] using (dictFind_dictUpdate_ne s.table p.id y p hp).trans ht
  | poll j =>
    cases hg : s.waiters[j]? with
    | none =>
      have hstep : corrStep s (CorrEv.poll j) = s := by simp [corrStep, hg]
      rw [hstep]; exact ⟨hw, ht⟩
    | some w =>
      cases hst : w.status with
      | done r =>
        have hstep : corrStep s (CorrEv.poll j) = s := by simp [corrStep, hg, hst]
        rw [hstep]; exact ⟨hw, ht⟩
      | pending =>
        by_cases hij : j = i
        · subst hij
          rw [hw] at hg
          injection hg with hg2
          have hwid : w.wid = y := by rw [← hg2]
          have hpop : dictPop s.table y = none :=
            dictPop_eq_none_of_find_none s.table y ht
          have hjp : getJobResultPoll s.table y = (none, s.table) := by
            simp [getJobResultPoll, hpop]
          have hstep : corrStep s (CorrEv.poll j) = s := by
            simp [corrStep, hw, hjp]
          rw [hstep]; exact ⟨hw, ht⟩
        · cases hdp : dictPop s.table w.wid with
          | none =>
            have hjp : getJobResultPoll s.table w.wid = (none, s.table) := by
              simp [getJobResultPoll, hdp]
            have hstep : corrStep s (CorrEv.poll j) = s := by
              simp [corrStep, hg, hst, hjp]
            rw [hstep]; exact ⟨hw, ht⟩
          | some pr =>
            obtain ⟨resp, t2⟩ := pr
            have ht2 : dictFind t2 y = none :=
              dictFind_none_of_pop s.table t2 w.wid y resp ht hdp
            have hjp : ∃ r, getJobResultPoll s.table w.wid = (some r, t2) := by
              by_cases hs : resp.success.getD true = true
              · exact ⟨.ok resp.result, by simp [getJobResultPoll, hdp, hs]⟩
              · refine ⟨.error (resp.error.getD "KeyError: error"), ?_⟩
                simp only [Bool.not_eq_true] at hs
                simp [getJobResultPoll, hdp, hs]
            obtain ⟨r, hjp⟩ := hjp
            have hstep : corrStep s (CorrEv.poll j) =
                { table := t2,
                  waiters := s.waiters.set j ⟨w.wid, WaitStatus.done r⟩ } := by
              simp [corrStep, hg, hst, hjp]
            rw [hstep]
            constructor
            · rw [List.getElem?_set_ne]
              · exact hw
              · exact hij
            · exact ht2

/-- Running any sequence of events in which every response carries an id
other than `y` leaves a waiter pending on `y` pending, provided the table
holds no entry for `y` to begin with. -/
theorem corrRun_preserves_pending (es : List CorrEv) (s : CorrState) (i : Nat) (y : String)
    (hw : s.waiters[i]? = some ⟨y, WaitStatus.pending⟩)
    (ht : dictFind s.table y = none)
    (he : responsesAvoid es y = true) :
    (corrRun s es).waiters[i]? = some ⟨y, WaitStatus.pending⟩ ∧
    dictFind (corrRun s es).table y = none := by
  induction es generalizing s with
  | nil => exact ⟨hw, ht⟩
  | cons e rest ih =>
    have hsplit := by simpa [responsesAvoid] using he
    have hestep : ∀ p, e = CorrEv.response p → (p.id == y) = false := by
      intro p hp
      subst hp
      simpa using hsplit.1
    obtain ⟨hw2, ht2⟩ := corrStep_preserves_pending s e i y hw ht hestep
    have hrest : responsesAvoid rest y = true := by
      simpa [responsesAvoid] using hsplit.2
    exact ih (corrStep s e) hw2 ht2 hrest

/- ### Lemmas about the reconnect loop -/

/-- Once the run flag is false, no in-session event sets it back. -/
theorem sessionRun_fst_false (evs : List SEv) : (sessionRun false evs).1 = false := by
  induction evs with
  | nil => rfl
  | cons e rest ih => cases e <;> simp [sessionRun, ih]

/-- An auth_error anywhere in the session leaves the run flag false. -/
theorem sessionRun_fst_of_authError (evs : List SEv) (run : Bool)
    (h : SEv.authError ∈ evs) : (sessionRun run evs).1 = false := by
  induction evs generalizing run with
  | nil => cases h
  | cons e rest ih =>
    cases e with
    | authError => simpa [sessionRun] using sessionRun_fst_false rest
    | tokenExpired =>
      have h2 : SEv.authError ∈ rest := by simpa using h
      simp [sessionRun, ih run h2]
    | otherEvent =>
      have h2 : SEv.authError ∈ rest := by simpa using h
      simp [sessionRun, ih run h2]

/-- Every action an in-session event handler performs is a signin POST. -/
theorem sessionRun_snd_signin (evs : List SEv) (run : Bool) :
    ∀ a ∈ (sessionRun run evs).2, a = Action.signin := by
  induction evs generalizing run with
  | nil => intro a ha; cases ha
  | cons e rest ih =>
    cases e with
    | authError => exact ih false
    | tokenExpired =>
      intro a ha
      rcases (by simpa [sessionRun] using ha : a = Action.signin ∨ a ∈ (sessionRun run rest).2) with h1 | h1
      · exact h1
      · exact ih run a h1
    | otherEvent => exact ih run

/-- A session without token_expired performs no handler actions. -/
theorem sessionRun_snd_nil (evs : List SEv) (run : Bool)
    (h : evs.contains SEv.tokenExpired = false) : (sessionRun run evs).2 = [] := by
  induction evs generalizing run with
  | nil => rfl
  | cons e rest ih =>
    cases e with
    | authError =>
      have h2 : rest.contains SEv.tokenExpired = false := by
        simpa [List.contains_cons] using h
      simp [sessionRun, ih false h2]
    | tokenExpired => simp [List.contains_cons] at h
    | otherEvent =>
      have h2 : rest.contains SEv.tokenExpired = false := by
        simpa [List.contains_cons] using h
      simp [sessionRun, ih run h2]

/-- Without token_expired events, the reconnect loop never performs a
signin POST: __authenticate runs only before the loop. -/
theorem signin_not_in_connectLoop (script : List Outcome)
    (h : scriptHasTokenExpired script = false) :
    Action.signin ∉ connectLoop script := by
  induction script with
  | nil => simp [connectLoop]
  | cons o rest ih =>
    cases o with
    | connectError =>
      have h2 : scriptHasTokenExpired rest = false := by
        simpa [scriptHasTokenExpired] using h
      simp [connectLoop, ih h2]
    | interrupt => simp [connectLoop]
    | session evs =>
      have h2 : evs.contains SEv.tokenExpired = false ∧ scriptHasTokenExpired rest = false := by
        simpa [scriptHasTokenExpired] using h
      have hnil : (sessionRun true evs).2 = [] := sessionRun_snd_nil evs true h2.1
      cases hr : (sessionRun true evs).1 with
      | true => simp [connectLoop, hnil, hr, ih h2.2]
      | false => simp [connectLoop, hnil, hr]

/- ### Claim theorems -/

/-- C1: exactly one job_completed is emitted per job_request in both
connectors, but success=false does NOT hold iff the handler raised: the
Interface and AsyncInterface constructions inside __execute_job raise a
TypeError before the handler is ever invoked, so the emitted completion is
a failure even for the demo handler that returns normally. This theorem
evaluates the code at that failing input. -/
theorem C1_completion_flag_evaluation :
    (∀ handler job, (executeJob handler job).length = 1) ∧
    (∀ handler job, (asyncExecuteJob handler job).length = 1) ∧
    demoHandler demoJob.job_payload = Except.ok (Value.obj [("status", "success")]) ∧
    executeJob demoHandler demoJob =
      [Emitted.job_completed (failureCompletion interfaceTypeErrorMsg).to_dict] ∧
    asyncExecuteJob demoHandler demoJob =
      [Emitted.job_completed (failureCompletion asyncInterfaceTypeErrorMsg).to_dict] ∧
    (failureCompletion interfaceTypeErrorMsg).success = false := by
  exact ⟨fun h j => rfl, fun h j => rfl, rfl, by decide, by decide, rfl⟩

/-- C2: in the demo-1 scenario the handler returns the status-success
dictionary, but the emitted job_completed is NOT the expected
success dict with null error fields: the Interface construction raises a
TypeError inside the try block, so the Connector error failure dict is
emitted instead. -/
theorem C2_scenario_evaluation :
    executeJob demoHandler demoJob =
      [Emitted.job_completed (failureCompletion interfaceTypeErrorMsg).to_dict] ∧
    executeJob demoHandler demoJob ≠ [Emitted.job_completed c2ExpectedDict] := by
  decide

/-- C3 counterexample: after the round trip on id X resolves the pending
invoke() with result 42 and empties the table, a second job_response with
the same id X is NOT dropped without effect on the pending-result table -
it is stored again, leaving a stale entry for X. -/
theorem C3_second_response_not_dropped :
    (corrRun c3Start [CorrEv.response pX, CorrEv.poll 0]).waiters
      = [⟨"X", WaitStatus.done (Except.ok (Value.num 42))⟩] ∧
    (corrRun c3Start [CorrEv.response pX, CorrEv.poll 0]).table = [] ∧
    (corrRun c3Start [CorrEv.response pX, CorrEv.poll 0, CorrEv.response pX]).table
      = [("X", pX)] := by
  decide

/-- C3 (amended): the round trip on id X makes the pending invoke() return
R = 42 exactly once; any later events - including a duplicate job_response
with id X - leave the resolved call untouched, although such a response is
recorded in the pending-result table rather than dropped. -/
theorem C3_round_trip_amended (es : List CorrEv) :
    (corrRun c3Start [CorrEv.response pX, CorrEv.poll 0]).waiters
      = [⟨"X", WaitStatus.done (Except.ok (Value.num 42))⟩] ∧
    (corrRun (corrRun c3Start [CorrEv.response pX, CorrEv.poll 0]) es).waiters
      = [⟨"X", WaitStatus.done (Except.ok (Value.num 42))⟩] := by
  have h1 : (corrRun c3Start [CorrEv.response pX, CorrEv.poll 0]).waiters
      = [⟨"X", WaitStatus.done (Except.ok (Value.num 42))⟩] := by decide
  refine ⟨h1, ?_⟩
  have hdone : allDone (corrRun c3Start [CorrEv.response pX, CorrEv.poll 0]) := by
    intro w hw
    rw [h1] at hw
    simp only [List.mem_singleton] at hw
    subst hw
    decide
  rw [corrRun_waiters_of_allDone es _ hdone, h1]

theorem C3_round_trip_amended_witness :
    (corrRun c3Start [CorrEv.response pX, CorrEv.poll 0]).waiters
      = [⟨"X", WaitStatus.done (Except.ok (Value.num 42))⟩] ∧
    (corrRun (corrRun c3Start [CorrEv.response pX, CorrEv.poll 0])
        [CorrEv.response pX]).waiters
      = [⟨"X", WaitStatus.done (Except.ok (Value.num 42))⟩] :=
  C3_round_trip_amended [CorrEv.response pX]

/-- C4: when the registered handler would raise ValueError with message
bad input, the emitted completion does have success=false, a non-null
traceback and error_tag Connector error, and nothing escapes the
job-execution path - but its error field is the TypeError message of the
Interface construction, not bad input, because the handler is never
invoked. The async connector diverges identically. -/
theorem C4_failing_handler_evaluation :
    executeJob badInputHandler j2Job =
      [Emitted.job_completed (failureCompletion interfaceTypeErrorMsg).to_dict] ∧
    (failureCompletion interfaceTypeErrorMsg).success = false ∧
    (failureCompletion interfaceTypeErrorMsg).error ≠ some "bad input" ∧
    (failureCompletion interfaceTypeErrorMsg).traceback ≠ none ∧
    (failureCompletion interfaceTypeErrorMsg).error_tag = some "Connector error" ∧
    asyncExecuteJob badInputHandler j2Job =
      [Emitted.job_completed (failureCompletion asyncInterfaceTypeErrorMsg).to_dict] := by
  decide

/-- C5 counterexample: the script session-disconnect, connect-error,
session produces exactly one signin POST (the one before the loop) across
three transport connect attempts, and the reconnect right after the clean
disconnect happens with no sleep5 before it - refuting the claim that
every disconnect or connection error is followed by the 5-unit backoff
and a re-executed POST /signin before the transport is reopened. -/
theorem C5_no_reauth_counterexample :
    connectorConnect [Outcome.session [], Outcome.connectError, Outcome.session []] =
      [Action.signin, Action.connectAttempt, Action.authEmit,
       Action.connectAttempt, Action.sleep5,
       Action.connectAttempt, Action.authEmit] ∧
    (connectorConnect
        [Outcome.session [], Outcome.connectError, Outcome.session []]).count
      Action.signin = 1 := by
  decide

/-- C5 (amended): on a transport ConnectionError while the run flag is
true the connector sleeps the fixed 5 units and the very next action is
the transport reconnect attempt; after a clean disconnect it reconnects
immediately with no backoff; the POST /signin runs exactly once before
the loop, and no reconnect re-executes it (absent token_expired events no
signin happens inside the loop) - each successful transport connect only
re-emits the authenticate event with the stored token. -/
theorem C5_amended_backoff (rest script : List Outcome)
    (h : scriptHasTokenExpired script = false) :
    connectLoop (Outcome.connectError :: rest) =
      Action.connectAttempt :: Action.sleep5 :: connectLoop rest ∧
    connectLoop (Outcome.session [] :: rest) =
      Action.connectAttempt :: Action.authEmit :: connectLoop rest ∧
    connectorConnect script = Action.signin :: connectLoop script ∧
    Action.signin ∉ connectLoop script := by
  refine ⟨rfl, by simp [connectLoop, sessionRun], rfl,
    signin_not_in_connectLoop script h⟩

theorem C5_amended_backoff_witness :
    connectLoop (Outcome.connectError :: []) =
      Action.connectAttempt :: Action.sleep5 :: connectLoop [] ∧
    connectLoop (Outcome.session [] :: []) =
      Action.connectAttempt :: Action.authEmit :: connectLoop [] ∧
    connectorConnect [Outcome.connectError] =
      Action.signin :: connectLoop [Outcome.connectError] ∧
    Action.signin ∉ connectLoop [Outcome.connectError] :=
  C5_amended_backoff [] [Outcome.connectError] (by decide)

/-- C6: an auth_error event clears the run flag, and however the script
continues, the connection loop performs no further connect attempt: the
remaining trace is only the handler signins of the current session
followed by the final disconnect call. -/
theorem C6_auth_error_stops (evs : List SEv) (rest : List Outcome)
    (h : SEv.authError ∈ evs) :
    (sessionRun true evs).1 = false ∧
    connectLoop (Outcome.session evs :: rest) =
      Action.connectAttempt :: Action.authEmit ::
        ((sessionRun true evs).2 ++ [Action.disconnectCall]) ∧
    Action.connectAttempt ∉ (sessionRun true evs).2 := by
  have hf := sessionRun_fst_of_authError evs true h
  refine ⟨hf, by simp [connectLoop, hf], ?_⟩
  intro hmem
  exact absurd (sessionRun_snd_signin evs true Action.connectAttempt hmem) (by decide)

theorem C6_auth_error_stops_witness :
    (sessionRun true [SEv.authError]).1 = false ∧
    connectLoop (Outcome.session [SEv.authError] :: [Outcome.connectError]) =
      Action.connectAttempt :: Action.authEmit ::
        ((sessionRun true [SEv.authError]).2 ++ [Action.disconnectCall]) ∧
    Action.connectAttempt ∉ (sessionRun true [SEv.authError]).2 :=
  C6_auth_error_stops [SEv.authError] [Outcome.connectError] (by decide)

/-- C7: a pending invoke() waiting on id y is never resolved, unblocked or
altered by job_response events carrying other ids, whatever polls and
responses are interleaved, as long as the table has no stale entry for y:
the waiter is still pending afterwards. -/
theorem C7_no_cross_resolution (s : CorrState) (es : List CorrEv) (i : Nat) (y : String)
    (hw : s.waiters[i]? = some ⟨y, WaitStatus.pending⟩)
    (ht : dictFind s.table y = none)
    (he : responsesAvoid es y = true) :
    (corrRun s es).waiters[i]? = some ⟨y, WaitStatus.pending⟩ :=
  (corrRun_preserves_pending es s i y hw ht he).1

theorem C7_no_cross_resolution_witness :
    (corrRun c7Start [CorrEv.response pY, CorrEv.poll 1, CorrEv.poll 0]).waiters[0]?
      = some ⟨"X", WaitStatus.pending⟩ :=
  C7_no_cross_resolution c7Start [CorrEv.response pY, CorrEv.poll 1, CorrEv.poll 0]
    0 "X" (by decide) (by decide) (by decide)

/-- C9: when the stored job_response payload has no success key, one poll
iteration of __get_job_result pops it and returns its result as a
successful outcome - response.get with default True makes a missing
success key count as success. -/
theorem C9_missing_success_defaults_true (t : RespTable) (x : String)
    (p : RespPayload) (t2 : RespTable)
    (hpop : dictPop t x = some (p, t2)) (hs : p.success = none) :
    getJobResultPoll t x = (some (Except.ok p.result), t2) := by
  simp [getJobResultPoll, hpop, hs]

theorem C9_missing_success_defaults_true_witness :
    getJobResultPoll [("X", pNoSuccess)] "X"
      = (some (Except.ok pNoSuccess.result), []) :=
  C9_missing_success_defaults_true [("X", pNoSuccess)] "X" pNoSuccess []
    (by decide) (by decide)

/-- C8: on token_expired the sync connector refreshes the stored token via
a signin POST, but the async connector does not - its registered handler
is a plain lambda returning the un-awaited coroutine built by calling the
async __authenticate, which python-socketio discards, so the auth state is
left unchanged for every starting state. -/
theorem C8_async_token_never_refreshed :
    triggerEventSync syncTokenExpiredHandler ⟨0, 0⟩ = authenticate ⟨0, 0⟩ ∧
    authenticate ⟨0, 0⟩ ≠ (⟨0, 0⟩ : AuthState) ∧
    (∀ st, triggerEventAsync asyncTokenExpiredHandler st = st) ∧
    (∀ st, (triggerEventSync syncTokenExpiredHandler st).signinCount
      = st.signinCount + 1) := by
  exact ⟨rfl, by decide, fun st => rfl, fun st => rfl⟩

/-- C10: with at least one registered handler, Client.connect constructs
Connector with five positional arguments against the four-parameter
Connector.__init__, so the construction raises a TypeError and no connect
is ever submitted to the executor. -/
theorem C10_client_connect_type_error (n : Nat) (h : 0 < n) :
    scheduleConnectors n = Except.error "TypeError: too many positional arguments" := by
  cases n with
  | zero => exact absurd h (by decide)
  | succ k => rfl

theorem C10_client_connect_type_error_witness :
    0 < 1 ∧
    scheduleConnectors 1 = Except.error "TypeError: too many positional arguments" :=
  ⟨by decide, C10_client_connect_type_error 1 (by decide)⟩

end Eezo
